import Mathlib

/-!
Shallow embedding of the gameplay core of the HyperNova battle-royale
repository: the hazard zone (`src/game/Storm.ts`), the weapon ammunition,
reload and fire-rate state machine (`Weapon.ts`), and the player movement,
stance and damage logic (`src/game/Player.ts`).

JavaScript numbers are modelled as rationals; the exact constants of the
source appear as exact rationals (0.7 is 7/10, 0.5 is 1/2, 9.8 is 49/5,
0.05 is 1/20).  External collision raycasts are read-only oracles in the
source and enter the embedding as boolean inputs.  Purely visual effects
(meshes, shader uniforms, muzzle-flash lights, impact particles) carry no
gameplay state except the muzzle-flash visibility flag, which shares the
weapon timer and is therefore kept.
-/

/-- Configuration of the hazard zone, mirroring `StormConfig` in
`Storm.ts`.  The `color` field is omitted: it feeds only the shader. -/
structure StormConfig where
  initialRadius : ℚ
  finalRadius : ℚ
  shrinkDuration : ℚ
  pauseDuration : ℚ
  damage : ℚ
  deriving DecidableEq

/-- The two phases of the storm cycle, mirroring the string union
`'shrinking' | 'paused'` in `Storm.ts`. -/
inductive StormPhase where
  | paused
  | shrinking
  deriving DecidableEq

/-- Mutable state of the storm: current radius, target radius, the phase
timer, the `nextPhaseTime` bookkeeping field, and the phase. -/
structure StormState where
  radius : ℚ
  targetRadius : ℚ
  timeRemaining : ℚ
  nextPhaseTime : ℚ
  phase : StormPhase
  deriving DecidableEq

/-- The state established by the `Storm` constructor: radius and target
radius start at `initialRadius`, the timer at `pauseDuration`, phase
`paused`. -/
def Storm.init (cfg : StormConfig) : StormState :=
  { radius := cfg.initialRadius
    targetRadius := cfg.initialRadius
    timeRemaining := cfg.pauseDuration
    nextPhaseTime := cfg.pauseDuration
    phase := StormPhase.paused }

/-- The phase-timer part of `Storm.update`: decrement `timeRemaining` by
`delta`; on reaching or crossing zero, flip the phase, reset the timer to
the next phase duration, and on entering `shrinking` recompute
`targetRadius = max (radius * 0.7) finalRadius`. -/
def Storm.tick (cfg : StormConfig) (s : StormState) (delta : ℚ) : StormState :=
  let s1 : StormState := { s with timeRemaining := s.timeRemaining - delta }
  if s1.timeRemaining ≤ 0 then
    match s1.phase with
    | StormPhase.paused =>
      { s1 with phase := StormPhase.shrinking
                timeRemaining := cfg.shrinkDuration
                nextPhaseTime := cfg.shrinkDuration
                targetRadius := max (s1.radius * (7/10)) cfg.finalRadius }
    | StormPhase.shrinking =>
      { s1 with phase := StormPhase.paused
                timeRemaining := cfg.pauseDuration
                nextPhaseTime := cfg.pauseDuration }
  else s1

/-- The radius part of `Storm.update`: while shrinking, subtract
`delta * (radius - targetRadius) / timeRemaining` from the radius, clamped
below at `targetRadius`. -/
def Storm.shrinkStep (s : StormState) (delta : ℚ) : StormState :=
  match s.phase with
  | StormPhase.shrinking =>
    let shrinkAmount := delta * ((s.radius - s.targetRadius) / s.timeRemaining)
    { s with radius := max (s.radius - shrinkAmount) s.targetRadius }
  | StormPhase.paused => s

/-- `Storm.update(delta, playerPosition)`: advance the phase timer, then the
radius, then return the new state together with the damage for this tick.
`dist` is the planar distance from `playerPosition` to the zone center that
the source computes with `Vector2.distanceTo` (nonnegative by construction
there); the damage is `damage * delta` exactly when `dist` exceeds the
updated radius, else `0`. -/
def Storm.update (cfg : StormConfig) (s : StormState) (delta dist : ℚ) :
    StormState × ℚ :=
  let s2 := Storm.shrinkStep (Storm.tick cfg s delta) delta
  (s2, if dist > s2.radius then cfg.damage * delta else 0)

/-- A sequence of `Storm.update` calls, each step a pair of the time delta
and the planar player distance; the damage outputs are discarded. -/
def Storm.run (cfg : StormConfig) (s : StormState) (steps : List (ℚ × ℚ)) :
    StormState :=
  steps.foldl (fun st p => (Storm.update cfg st p.1 p.2).1) s

/-- The configuration hard-coded in the `Storm` constructor. -/
def stormDefaultConfig : StormConfig :=
  { initialRadius := 200
    finalRadius := 20
    shrinkDuration := 60
    pauseDuration := 30
    damage := 2 }

/-- The invariant carried by the storm state: the configured final radius
never exceeds the target radius, which never exceeds the radius. -/
def StormInv (cfg : StormConfig) (s : StormState) : Prop :=
  cfg.finalRadius ≤ s.targetRadius ∧ s.targetRadius ≤ s.radius

/-- Weapon configuration, mirroring `WeaponConfig`; the name, model path,
muzzle-flash placement and automatic-fire flag feed only visuals and input
wiring and are omitted. -/
structure WeaponConfig where
  damage : ℚ
  fireRate : ℚ
  ammo : ℚ
  maxAmmo : ℚ
  reserveAmmo : ℚ
  maxReserveAmmo : ℚ
  reloadTime : ℚ
  deriving DecidableEq

/-- Mutable gameplay state of a weapon: ammunition counts, the reloading
flag, the shared `lastShotTime` timer (cooldown bookkeeping, reload
progress and muzzle-flash age all use it), and the muzzle-flash
visibility. -/
structure WeaponState where
  ammo : ℚ
  reserveAmmo : ℚ
  isReloading : Bool
  lastShotTime : ℚ
  muzzleFlashVisible : Bool
  deriving DecidableEq

/-- `shootingInterval = 1 / fireRate`, computed in the constructor. -/
def Weapon.shootingInterval (cfg : WeaponConfig) : ℚ := 1 / cfg.fireRate

/-- The state established by the `Weapon` constructor. -/
def Weapon.init (cfg : WeaponConfig) : WeaponState :=
  { ammo := cfg.ammo
    reserveAmmo := cfg.reserveAmmo
    isReloading := false
    lastShotTime := 0
    muzzleFlashVisible := false }

/-- `Weapon.reload()`: a silent no-op when already reloading, at full
ammo, or with no reserve; otherwise set the reloading flag and reset the
shared timer to zero. -/
def Weapon.reload (cfg : WeaponConfig) (s : WeaponState) : WeaponState :=
  if s.isReloading = true ∨ s.ammo = cfg.maxAmmo ∨ s.reserveAmmo ≤ 0 then s
  else { s with isReloading := true, lastShotTime := 0 }

/-- `Weapon.completeReload()`: transfer `min (maxAmmo - ammo) reserveAmmo`
rounds from reserve to ammo and clear the reloading flag. -/
def Weapon.completeReload (cfg : WeaponConfig) (s : WeaponState) : WeaponState :=
  let ammoToAdd := min (cfg.maxAmmo - s.ammo) s.reserveAmmo
  { s with ammo := s.ammo + ammoToAdd
           reserveAmmo := s.reserveAmmo - ammoToAdd
           isReloading := false }

/-- `Weapon.shoot()` at wall-clock time `now` (the source reads
`performance.now() / 1000`).  Guards in source order: if reloading or out
of ammo, trigger a reload when out of ammo and return; then drop the shot
when `now - lastShotTime` is under the cooldown interval; otherwise record
the shot time, decrement ammo and show the muzzle flash.  The hitscan
raycast that follows touches only scene objects outside the weapon
state. -/
def Weapon.shoot (cfg : WeaponConfig) (s : WeaponState) (now : ℚ) : WeaponState :=
  if s.isReloading = true ∨ s.ammo ≤ 0 then
    if s.ammo ≤ 0 then Weapon.reload cfg s else s
  else if now - s.lastShotTime < Weapon.shootingInterval cfg then s
  else { s with lastShotTime := now, ammo := s.ammo - 1, muzzleFlashVisible := true }

/-- `Weapon.update(delta)`: while reloading accumulate `delta` into the
shared timer and complete the reload once it reaches `reloadTime`; then,
while the muzzle flash is visible, accumulate `delta` again and hide the
flash once the timer passes 0.05. -/
def Weapon.update (cfg : WeaponConfig) (s : WeaponState) (delta : ℚ) : WeaponState :=
  let s1 :=
    if s.isReloading = true then
      let s' := { s with lastShotTime := s.lastShotTime + delta }
      if s'.lastShotTime ≥ cfg.reloadTime then Weapon.completeReload cfg s' else s'
    else s
  if s1.muzzleFlashVisible = true then
    let s2 := { s1 with lastShotTime := s1.lastShotTime + delta }
    if s2.lastShotTime > 1/20 then { s2 with muzzleFlashVisible := false } else s2
  else s1

/-- The assault-rifle configuration from `Player.initWeapons`, with the
starting magazine reduced to one round for the fire-rate scenario. -/
def scenarioWeaponConfig : WeaponConfig :=
  { damage := 20
    fireRate := 10
    ammo := 1
    maxAmmo := 30
    reserveAmmo := 120
    maxReserveAmmo := 240
    reloadTime := 2 }

/-- Player state, mirroring the fields of `Player.ts` that gameplay logic
reads or writes: the five movement flags, the vertical velocity and
position, the stance flags and the health and armor statistics.  The
lateral channel (velocity.x, velocity.z, the planar position and the
four-direction `checkCollisions` resolution) only ever feeds back into
itself and the planar position and is not modelled here; no verified
property mentions it. -/
structure PlayerState where
  moveForward : Bool
  moveBackward : Bool
  moveLeft : Bool
  moveRight : Bool
  sprint : Bool
  velY : ℚ
  posY : ℚ
  isCrouching : Bool
  isJumping : Bool
  isClimbing : Bool
  health : ℚ
  maxHealth : ℚ
  armor : ℚ
  maxArmor : ℚ
  deriving DecidableEq

/-- `gravity = 9.8`. -/
def Player.gravity : ℚ := 49/5

/-- `jumpVelocity = 5`. -/
def Player.jumpVelocity : ℚ := 5

/-- `standingHeight = 2`. -/
def Player.standingHeight : ℚ := 2

/-- `crouchingHeight = 1`. -/
def Player.crouchingHeight : ℚ := 1

/-- `climbSpeed = 3`. -/
def Player.climbSpeed : ℚ := 3

/-- The crouch-aware stance height used by the ground checks. -/
def Player.stanceHeight (s : PlayerState) : ℚ :=
  if s.isCrouching = true then Player.crouchingHeight else Player.standingHeight

/-- `Player.isOnGround`: position.y at or below half the stance height. -/
def Player.isOnGround (s : PlayerState) : Bool :=
  decide (s.posY ≤ Player.stanceHeight s / 2)

/-- `Player.checkClimbing`: `canClimb` is the oracle answer of the forward
raycast (a climbable object within distance 1.5).  Climbing engages only
when `canClimb` and the forward flag both hold; the snap-to-ladder block of
the source is dead code (it is guarded by the negation of a flag set to
true on the line above) and drops out.  While climbing, vertical velocity
is forced to `climbSpeed` when moving forward, `-climbSpeed` when moving
backward, else `0`. -/
def Player.checkClimbing (s : PlayerState) (canClimb : Bool) : PlayerState :=
  if canClimb && s.moveForward then
    let s1 := { s with isClimbing := true }
    { s1 with velY :=
        if s1.moveForward = true then Player.climbSpeed
        else if s1.moveBackward = true then -Player.climbSpeed
        else 0 }
  else { s with isClimbing := false }

/-- The gravity block of `Player.update`: only when not climbing; airborne
players accelerate downward, a grounded falling player gets velocity.y
clamped to -0.1 and the jumping flag cleared. -/
def Player.gravityStep (s : PlayerState) (delta : ℚ) : PlayerState :=
  if s.isClimbing = true then s
  else if Player.isOnGround s = false then
    { s with velY := s.velY - Player.gravity * delta }
  else if s.velY < 0 then { s with velY := -(1/10), isJumping := false }
  else s

/-- The climbing override inside the forward/backward movement block of
`Player.update`: while climbing, forward motion forces velocity.y to
`climbSpeed` and any other forward/backward combination zeroes it.  The
intended lateral velocities computed in the same block feed only the
unmodelled lateral channel. -/
def Player.climbMoveStep (s : PlayerState) : PlayerState :=
  if s.moveForward || s.moveBackward then
    if s.isClimbing && s.moveForward then { s with velY := Player.climbSpeed }
    else if s.isClimbing = true then { s with velY := 0 }
    else s
  else s

/-- The vertical position integration of `Player.update`:
`position.y += velocity.y * delta`. -/
def Player.integrateY (s : PlayerState) (delta : ℚ) : PlayerState :=
  { s with posY := s.posY + s.velY * delta }

/-- The fixed-height floor clamp at the end of `Player.update`: snap
position.y to half the stance height and zero vertical velocity when it
falls below that floor. -/
def Player.floorClamp (s : PlayerState) : PlayerState :=
  if s.posY < Player.stanceHeight s / 2 then
    { s with posY := Player.stanceHeight s / 2, velY := 0 }
  else s

/-- `Player.update(delta, world)` restricted to the modelled fields, in
source order: climb detection, the gravity block, the climbing override of
vertical velocity, vertical position integration, and the floor clamp.
The direction normalization, speed resolution, lateral collision
resolution and the two camera-relative moves write only the unmodelled
lateral channel; the weapon tick at the end touches only the active
weapon. -/
def Player.update (s : PlayerState) (delta : ℚ) (canClimb : Bool) : PlayerState :=
  Player.floorClamp
    (Player.integrateY
      (Player.climbMoveStep (Player.gravityStep (Player.checkClimbing s canClimb) delta))
      delta)

/-- `Player.takeDamage(amount)`: when armor is positive, absorb
`min armor (amount * 0.5)` into armor and remove it from the incoming
amount; then apply the remaining amount to health, clamped below at 0. -/
def Player.takeDamage (s : PlayerState) (amount : ℚ) : PlayerState :=
  let p : ℚ × ℚ :=
    if 0 < s.armor then
      let armorDamage := min s.armor (amount * (1/2))
      (s.armor - armorDamage, amount - armorDamage)
    else (s.armor, amount)
  { s with armor := p.1, health := max 0 (s.health - p.2) }

/-- `Player.heal(amount)`: health clamped above at `maxHealth`. -/
def Player.heal (s : PlayerState) (amount : ℚ) : PlayerState :=
  { s with health := min s.maxHealth (s.health + amount) }

/-- `Player.addArmor(amount)`: armor clamped above at `maxArmor`. -/
def Player.addArmor (s : PlayerState) (amount : ℚ) : PlayerState :=
  { s with armor := min s.maxArmor (s.armor + amount) }

/-- `Player.addShield()`: adds 50 armor with no clamp. -/
def Player.addShield (s : PlayerState) : PlayerState :=
  { s with armor := s.armor + 50 }

/-- `Player.pickUpPowerUp(powerUp)`: a shield power-up applies
`addShield`; every other type leaves the player state unchanged. -/
def Player.pickUpPowerUp (s : PlayerState) (ptype : String) : PlayerState :=
  if ptype = "shield" then Player.addShield s else s

/-- `Player.jump()`: sets vertical velocity to the jump impulse. -/
def Player.jump (s : PlayerState) : PlayerState :=
  { s with velY := Player.jumpVelocity }

/-- `Player.toggleCrouch()`: flip the crouching flag and shift the camera
height by half the standing-minus-crouching height difference, down when
entering the crouch and up when leaving it. -/
def Player.toggleCrouch (s : PlayerState) : PlayerState :=
  let c := !s.isCrouching
  let heightDifference := Player.standingHeight - Player.crouchingHeight
  { s with isCrouching := c
           posY := if c = true then s.posY - heightDifference / 2
                   else s.posY + heightDifference / 2 }

/-- The player state established by the constructor: position (30, 2, 30),
health 100 of 100, armor 0 of 100, all flags clear. -/
def Player.init : PlayerState :=
  { moveForward := false
    moveBackward := false
    moveLeft := false
    moveRight := false
    sprint := false
    velY := 0
    posY := 2
    isCrouching := false
    isJumping := false
    isClimbing := false
    health := 100
    maxHealth := 100
    armor := 0
    maxArmor := 100 }

/-- One public player operation, with the oracle input of `update`
attached to its call. -/
inductive PlayerOp where
  | takeDamage (amount : ℚ)
  | heal (amount : ℚ)
  | addArmor (amount : ℚ)
  | pickUpPowerUp (ptype : String)
  | update (delta : ℚ) (canClimb : Bool)
  deriving DecidableEq

/-- Apply one public player operation. -/
def Player.applyOp (s : PlayerState) : PlayerOp → PlayerState
  | PlayerOp.takeDamage a => Player.takeDamage s a
  | PlayerOp.heal a => Player.heal s a
  | PlayerOp.addArmor a => Player.addArmor s a
  | PlayerOp.pickUpPowerUp t => Player.pickUpPowerUp s t
  | PlayerOp.update d c => Player.update s d c

/-- Run a sequence of public player operations. -/
def Player.runOps (s : PlayerState) (ops : List PlayerOp) : PlayerState :=
  ops.foldl Player.applyOp s

/-- Admissible operation arguments: damage, heal and armor amounts are
nonnegative (they come from storm damage, weapon damage and pickups, all
nonnegative) and the power-up is not the unclamped shield. -/
def PlayerOp.ok : PlayerOp → Bool
  | PlayerOp.takeDamage a => decide (0 ≤ a)
  | PlayerOp.heal a => decide (0 ≤ a)
  | PlayerOp.addArmor a => decide (0 ≤ a)
  | PlayerOp.pickUpPowerUp t => decide (t ≠ "shield")
  | PlayerOp.update _ _ => true

/-- The health and armor bounds of the data-model invariant. -/
def PlayerInv (s : PlayerState) : Prop :=
  0 ≤ s.health ∧ s.health ≤ s.maxHealth ∧ 0 ≤ s.armor ∧ s.armor ≤ s.maxArmor

/-- A storm state sitting at radius 20 in the middle of a pause, for the
damage scenario. -/
def scenarioStormState : StormState :=
  { radius := 20
    targetRadius := 20
    timeRemaining := 10
    nextPhaseTime := 30
    phase := StormPhase.paused }

/-- A player with 30 armor, for the damage-absorption scenario. -/
def scenarioArmorPlayer : PlayerState :=
  { Player.init with armor := 30 }

/-- A player mid-climb who releases forward and holds backward, standing
well above the floor. -/
def scenarioClimbPlayer : PlayerState :=
  { Player.init with moveBackward := true, isClimbing := true, posY := 10 }

/-- A weapon mid-reload on an empty magazine, 0.1 s short of the 2 s
reload time. -/
def scenarioReloadingWeapon : WeaponState :=
  { ammo := 0
    reserveAmmo := 120
    isReloading := true
    lastShotTime := 19/10
    muzzleFlashVisible := false }

/-! ## Helper lemmas -/

theorem Storm.tick_radius (cfg : StormConfig) (s : StormState) (delta : ℚ) :
    (Storm.tick cfg s delta).radius = s.radius := by
  unfold Storm.tick
  dsimp only
  repeat' split
  all_goals rfl

theorem Storm.tick_timer_pos (cfg : StormConfig) (s : StormState) (delta : ℚ)
    (hs : 0 < cfg.shrinkDuration) (hp : 0 < cfg.pauseDuration) :
    0 < (Storm.tick cfg s delta).timeRemaining := by
  unfold Storm.tick
  dsimp only
  repeat' split
  · exact hs
  · exact hp
  · rename_i h
    simpa using lt_of_not_le h

theorem Storm.shrink_timer (s : StormState) (delta : ℚ) :
    (Storm.shrinkStep s delta).timeRemaining = s.timeRemaining := by
  unfold Storm.shrinkStep
  repeat' split
  all_goals rfl

theorem Storm.tick_inv (cfg : StormConfig) (s : StormState) (delta : ℚ)
    (hf : 0 ≤ cfg.finalRadius) (h : StormInv cfg s) :
    StormInv cfg (Storm.tick cfg s delta) := by
  obtain ⟨h1, h2⟩ := h
  have hr0 : 0 ≤ s.radius := hf.trans (h1.trans h2)
  unfold Storm.tick StormInv
  dsimp only
  repeat' split
  · exact ⟨le_max_right _ _, max_le (by linarith) (h1.trans h2)⟩
  · exact ⟨h1, h2⟩
  · exact ⟨h1, h2⟩

theorem Storm.shrink_inv (cfg : StormConfig) (s : StormState) (delta : ℚ)
    (h : StormInv cfg s) (ht : 0 < s.timeRemaining) (hd : 0 ≤ delta) :
    StormInv cfg (Storm.shrinkStep s delta) ∧ (Storm.shrinkStep s delta).radius ≤ s.radius := by
  obtain ⟨h1, h2⟩ := h
  have hamt : 0 ≤ delta * ((s.radius - s.targetRadius) / s.timeRemaining) :=
    mul_nonneg hd (div_nonneg (sub_nonneg.2 h2) ht.le)
  unfold Storm.shrinkStep StormInv
  dsimp only
  repeat' split
  · exact ⟨⟨h1, le_max_right _ _⟩, max_le (by linarith) h2⟩
  · exact ⟨⟨h1, h2⟩, le_refl _⟩

theorem Storm.update_step (cfg : StormConfig) (s : StormState) (delta dist : ℚ)
    (hs : 0 < cfg.shrinkDuration) (hp : 0 < cfg.pauseDuration)
    (hf : 0 ≤ cfg.finalRadius) (h : StormInv cfg s) (hd : 0 ≤ delta) :
    StormInv cfg (Storm.update cfg s delta dist).1 ∧
      (Storm.update cfg s delta dist).1.radius ≤ s.radius := by
  have htick := Storm.tick_inv cfg s delta hf h
  have hpos := Storm.tick_timer_pos cfg s delta hs hp
  have hshr := Storm.shrink_inv cfg (Storm.tick cfg s delta) delta htick hpos hd
  exact ⟨hshr.1, hshr.2.trans (Storm.tick_radius cfg s delta).le⟩

theorem Storm.run_inv (cfg : StormConfig) (steps : List (ℚ × ℚ)) (s : StormState)
    (hs : 0 < cfg.shrinkDuration) (hp : 0 < cfg.pauseDuration)
    (hf : 0 ≤ cfg.finalRadius) (h : StormInv cfg s)
    (hsteps : ∀ p ∈ steps, 0 ≤ p.1) :
    StormInv cfg (Storm.run cfg s steps) := by
  induction steps generalizing s with
  | nil => simpa [Storm.run] using h
  | cons p ps ih =>
    have hstep := Storm.update_step cfg s p.1 p.2 hs hp hf h
      (hsteps p (List.mem_cons_self p ps))
    have hrw : Storm.run cfg s (p :: ps) = Storm.run cfg (Storm.update cfg s p.1 p.2).1 ps := rfl
    rw [hrw]
    exact ih (Storm.update cfg s p.1 p.2).1 hstep.1
      (fun q hq => hsteps q (List.mem_cons_of_mem p hq))

theorem Weapon.update_complete_shape (cfg : WeaponConfig) (s : WeaponState) (delta : ℚ)
    (h1 : s.isReloading = true) (h2 : cfg.reloadTime ≤ s.lastShotTime + delta) :
    ∃ t f, Weapon.update cfg s delta =
      { Weapon.completeReload cfg { s with lastShotTime := s.lastShotTime + delta } with
          lastShotTime := t, muzzleFlashVisible := f } := by
  unfold Weapon.update
  dsimp only
  simp only [h1, eq_self_iff_true, if_true, ge_iff_le]
  rw [if_pos h2]
  split
  · split
    · exact ⟨_, _, rfl⟩
    · exact ⟨_, _, rfl⟩
  · exact ⟨_, _, rfl⟩

theorem Player.checkClimbing_stats (s : PlayerState) (canClimb : Bool) :
    (Player.checkClimbing s canClimb).health = s.health ∧
    (Player.checkClimbing s canClimb).maxHealth = s.maxHealth ∧
    (Player.checkClimbing s canClimb).armor = s.armor ∧
    (Player.checkClimbing s canClimb).maxArmor = s.maxArmor := by
  unfold Player.checkClimbing
  split <;> exact ⟨rfl, rfl, rfl, rfl⟩

theorem Player.gravityStep_stats (s : PlayerState) (delta : ℚ) :
    (Player.gravityStep s delta).health = s.health ∧
    (Player.gravityStep s delta).maxHealth = s.maxHealth ∧
    (Player.gravityStep s delta).armor = s.armor ∧
    (Player.gravityStep s delta).maxArmor = s.maxArmor := by
  unfold Player.gravityStep
  split_ifs <;> exact ⟨rfl, rfl, rfl, rfl⟩

theorem Player.climbMoveStep_stats (s : PlayerState) :
    (Player.climbMoveStep s).health = s.health ∧
    (Player.climbMoveStep s).maxHealth = s.maxHealth ∧
    (Player.climbMoveStep s).armor = s.armor ∧
    (Player.climbMoveStep s).maxArmor = s.maxArmor := by
  unfold Player.climbMoveStep
  split_ifs <;> exact ⟨rfl, rfl, rfl, rfl⟩

theorem Player.integrateY_stats (s : PlayerState) (delta : ℚ) :
    (Player.integrateY s delta).health = s.health ∧
    (Player.integrateY s delta).maxHealth = s.maxHealth ∧
    (Player.integrateY s delta).armor = s.armor ∧
    (Player.integrateY s delta).maxArmor = s.maxArmor :=
  ⟨rfl, rfl, rfl, rfl⟩

theorem Player.floorClamp_stats (s : PlayerState) :
    (Player.floorClamp s).health = s.health ∧
    (Player.floorClamp s).maxHealth = s.maxHealth ∧
    (Player.floorClamp s).armor = s.armor ∧
    (Player.floorClamp s).maxArmor = s.maxArmor := by
  unfold Player.floorClamp
  split_ifs <;> exact ⟨rfl, rfl, rfl, rfl⟩

theorem Player.update_stats (s : PlayerState) (delta : ℚ) (canClimb : Bool) :
    (Player.update s delta canClimb).health = s.health ∧
    (Player.update s delta canClimb).maxHealth = s.maxHealth ∧
    (Player.update s delta canClimb).armor = s.armor ∧
    (Player.update s delta canClimb).maxArmor = s.maxArmor := by
  unfold Player.update
  refine ⟨?_, ?_, ?_, ?_⟩
  · rw [(Player.floorClamp_stats _).1, (Player.integrateY_stats _ _).1,
      (Player.climbMoveStep_stats _).1, (Player.gravityStep_stats _ _).1,
      (Player.checkClimbing_stats _ _).1]
  · rw [(Player.floorClamp_stats _).2.1, (Player.integrateY_stats _ _).2.1,
      (Player.climbMoveStep_stats _).2.1, (Player.gravityStep_stats _ _).2.1,
      (Player.checkClimbing_stats _ _).2.1]
  · rw [(Player.floorClamp_stats _).2.2.1, (Player.integrateY_stats _ _).2.2.1,
      (Player.climbMoveStep_stats _).2.2.1, (Player.gravityStep_stats _ _).2.2.1,
      (Player.checkClimbing_stats _ _).2.2.1]
  · rw [(Player.floorClamp_stats _).2.2.2, (Player.integrateY_stats _ _).2.2.2,
      (Player.climbMoveStep_stats _).2.2.2, (Player.gravityStep_stats _ _).2.2.2,
      (Player.checkClimbing_stats _ _).2.2.2]

theorem Player.checkClimbing_noForward (s : PlayerState) (canClimb : Bool)
    (hf : s.moveForward = false) :
    Player.checkClimbing s canClimb = { s with isClimbing := false } := by
  unfold Player.checkClimbing
  simp [hf]

theorem Player.gravityStep_isClimbing (s : PlayerState) (delta : ℚ) :
    (Player.gravityStep s delta).isClimbing = s.isClimbing := by
  unfold Player.gravityStep
  split_ifs <;> rfl

theorem Player.climbMoveStep_id (s : PlayerState) (h : s.isClimbing = false) :
    Player.climbMoveStep s = s := by
  unfold Player.climbMoveStep
  rw [h]
  simp

theorem Player.integrateY_isClimbing (s : PlayerState) (delta : ℚ) :
    (Player.integrateY s delta).isClimbing = s.isClimbing := rfl

theorem Player.floorClamp_isClimbing (s : PlayerState) :
    (Player.floorClamp s).isClimbing = s.isClimbing := by
  unfold Player.floorClamp
  split_ifs <;> rfl

theorem Player.update_noForward_shape (s : PlayerState) (delta : ℚ) (canClimb : Bool)
    (hf : s.moveForward = false) :
    Player.update s delta canClimb
      = Player.floorClamp
          (Player.integrateY (Player.gravityStep { s with isClimbing := false } delta) delta) := by
  unfold Player.update
  rw [Player.checkClimbing_noForward s canClimb hf,
    Player.climbMoveStep_id _ (by rw [Player.gravityStep_isClimbing])]

theorem Player.applyOp_inv (s : PlayerState) (op : PlayerOp)
    (hop : PlayerOp.ok op = true) (h : PlayerInv s) : PlayerInv (Player.applyOp s op) := by
  obtain ⟨hh0, hhm, ha0, ham⟩ := h
  have hm0 : (0:ℚ) ≤ s.maxHealth := hh0.trans hhm
  have hA0 : (0:ℚ) ≤ s.maxArmor := ha0.trans ham
  cases op with
  | takeDamage a =>
    have haa : 0 ≤ a := by simpa [PlayerOp.ok] using hop
    show PlayerInv (Player.takeDamage s a)
    unfold Player.takeDamage PlayerInv
    dsimp only
    by_cases hpos : 0 < s.armor
    · rw [if_pos hpos]
      dsimp only
      have h1 : min s.armor (a * (1/2)) ≤ a * (1/2) := min_le_right _ _
      have h2 : min s.armor (a * (1/2)) ≤ s.armor := min_le_left _ _
      have h3 : 0 ≤ min s.armor (a * (1/2)) := le_min hpos.le (by positivity)
      exact ⟨le_max_left _ _, max_le hm0 (by linarith), by linarith, by linarith⟩
    · rw [if_neg hpos]
      dsimp only
      exact ⟨le_max_left _ _, max_le hm0 (by linarith), ha0, ham⟩
  | heal a =>
    have haa : 0 ≤ a := by simpa [PlayerOp.ok] using hop
    unfold Player.applyOp Player.heal PlayerInv
    exact ⟨le_min hm0 (by linarith), min_le_left _ _, ha0, ham⟩
  | addArmor a =>
    have haa : 0 ≤ a := by simpa [PlayerOp.ok] using hop
    unfold Player.applyOp Player.addArmor PlayerInv
    exact ⟨hh0, hhm, le_min hA0 (by linarith), min_le_left _ _⟩
  | pickUpPowerUp t =>
    have ht : t ≠ "shield" := by simpa [PlayerOp.ok] using hop
    show PlayerInv (Player.pickUpPowerUp s t)
    unfold Player.pickUpPowerUp
    rw [if_neg ht]
    exact ⟨hh0, hhm, ha0, ham⟩
  | update d c =>
    have hst := Player.update_stats s d c
    show PlayerInv (Player.update s d c)
    unfold PlayerInv
    rw [hst.1, hst.2.1, hst.2.2.1, hst.2.2.2]
    exact ⟨hh0, hhm, ha0, ham⟩

theorem Player.runOps_inv (ops : List PlayerOp) (s : PlayerState)
    (h : PlayerInv s) (hops : ∀ op ∈ ops, PlayerOp.ok op = true) :
    PlayerInv (Player.runOps s ops) := by
  induction ops generalizing s with
  | nil => simpa [Player.runOps] using h
  | cons op ops ih =>
    have h1 := Player.applyOp_inv s op (hops op (List.mem_cons_self op ops)) h
    have hrw : Player.runOps s (op :: ops) = Player.runOps (Player.applyOp s op) ops := rfl
    rw [hrw]
    exact ih (Player.applyOp s op) h1 (fun q hq => hops q (List.mem_cons_of_mem op hq))

/-! ## Claim theorems -/

/-- C1: across every sequence of `Storm.update` calls with nonnegative time
deltas, starting from the constructor state, the radius never drops below
the configured `finalRadius`, and one further `update` call never increases
it. -/
theorem storm_radius_monotone_bounded (cfg : StormConfig)
    (hs : 0 < cfg.shrinkDuration) (hp : 0 < cfg.pauseDuration)
    (hf : 0 ≤ cfg.finalRadius) (hi : cfg.finalRadius ≤ cfg.initialRadius)
    (steps : List (ℚ × ℚ)) (hsteps : ∀ p ∈ steps, 0 ≤ p.1)
    (delta dist : ℚ) (hd : 0 ≤ delta) :
    cfg.finalRadius ≤ (Storm.run cfg (Storm.init cfg) steps).radius ∧
    (Storm.update cfg (Storm.run cfg (Storm.init cfg) steps) delta dist).1.radius
      ≤ (Storm.run cfg (Storm.init cfg) steps).radius := by
  have h0 : StormInv cfg (Storm.init cfg) := ⟨hi, le_refl _⟩
  have hrun := Storm.run_inv cfg steps (Storm.init cfg) hs hp hf h0 hsteps
  exact ⟨hrun.1.trans hrun.2,
    (Storm.update_step cfg _ delta dist hs hp hf hrun hd).2⟩

/-- C1 witness: the default configuration, one one-second update, and one
further update. -/
theorem storm_radius_monotone_bounded_witness :
    stormDefaultConfig.finalRadius
      ≤ (Storm.run stormDefaultConfig (Storm.init stormDefaultConfig) [(1, 0)]).radius ∧
    (Storm.update stormDefaultConfig
        (Storm.run stormDefaultConfig (Storm.init stormDefaultConfig) [(1, 0)]) 1 0).1.radius
      ≤ (Storm.run stormDefaultConfig (Storm.init stormDefaultConfig) [(1, 0)]).radius :=
  storm_radius_monotone_bounded stormDefaultConfig
    (by norm_num [stormDefaultConfig]) (by norm_num [stormDefaultConfig])
    (by norm_num [stormDefaultConfig]) (by norm_num [stormDefaultConfig])
    [(1, 0)] (by norm_num) 1 0 (by norm_num)

/-- C2 counterexample: with fireRate 10 and one round, `shoot()` at t = 0 on
a fresh weapon does not fire (ammo stays 1) because the shot timestamp
initializes to 0 and the cooldown check rejects it; and after a first shot
fired at t = 1, a second call 0.05 s later sets the reloading flag, because
the out-of-ammo guard runs before the cooldown check. -/
theorem weapon_fire_rate_scenario_cex :
    (Weapon.shoot scenarioWeaponConfig (Weapon.init scenarioWeaponConfig) 0).ammo = 1 ∧
    (Weapon.shoot scenarioWeaponConfig
        (Weapon.shoot scenarioWeaponConfig (Weapon.init scenarioWeaponConfig) 1)
        (21/20)).isReloading = true := by
  constructor <;>
    norm_num [Weapon.shoot, Weapon.reload, Weapon.init, Weapon.shootingInterval,
      scenarioWeaponConfig]

/-- C2 amended: `shoot()` at t = 0 on a fresh weapon is dropped whole by
the cooldown (the weapon state is unchanged); a first call at t = 1 fires
and leaves ammo 0 without reloading; the next call 0.05 s later, inside
the cooldown window, hits the out-of-ammo guard (which precedes the
cooldown check) and immediately starts a reload: the reloading flag is
set, the shared timer resets to 0, and ammo and reserve are unchanged. -/
theorem weapon_fire_rate_scenario_amended :
    Weapon.shoot scenarioWeaponConfig (Weapon.init scenarioWeaponConfig) 0
      = Weapon.init scenarioWeaponConfig ∧
    (Weapon.shoot scenarioWeaponConfig (Weapon.init scenarioWeaponConfig) 1).ammo = 0 ∧
    (Weapon.shoot scenarioWeaponConfig (Weapon.init scenarioWeaponConfig) 1).isReloading
      = false ∧
    (Weapon.shoot scenarioWeaponConfig
        (Weapon.shoot scenarioWeaponConfig (Weapon.init scenarioWeaponConfig) 1)
        (21/20)).isReloading = true ∧
    (Weapon.shoot scenarioWeaponConfig
        (Weapon.shoot scenarioWeaponConfig (Weapon.init scenarioWeaponConfig) 1)
        (21/20)).ammo = 0 ∧
    (Weapon.shoot scenarioWeaponConfig
        (Weapon.shoot scenarioWeaponConfig (Weapon.init scenarioWeaponConfig) 1)
        (21/20)).reserveAmmo = 120 ∧
    (Weapon.shoot scenarioWeaponConfig
        (Weapon.shoot scenarioWeaponConfig (Weapon.init scenarioWeaponConfig) 1)
        (21/20)).lastShotTime = 0 := by
  refine ⟨?_, ?_, ?_, ?_, ?_, ?_, ?_⟩ <;>
    norm_num [Weapon.shoot, Weapon.reload, Weapon.init, Weapon.shootingInterval,
      scenarioWeaponConfig]

/-- C3 counterexample: `addArmor 100` caps armor at maxArmor = 100, but one
shield power-up then raises armor to 150, above maxArmor. -/
theorem player_shield_overflow_cex :
    (Player.runOps Player.init
        [PlayerOp.addArmor 100, PlayerOp.pickUpPowerUp "shield"]).armor = 150 ∧
    (Player.runOps Player.init
        [PlayerOp.addArmor 100, PlayerOp.pickUpPowerUp "shield"]).maxArmor = 100 ∧
    ¬ (Player.runOps Player.init
        [PlayerOp.addArmor 100, PlayerOp.pickUpPowerUp "shield"]).armor
      ≤ (Player.runOps Player.init
        [PlayerOp.addArmor 100, PlayerOp.pickUpPowerUp "shield"]).maxArmor := by
  refine ⟨?_, ?_, ?_⟩ <;>
    norm_num [Player.runOps, Player.applyOp, Player.addArmor, Player.pickUpPowerUp,
      Player.addShield, Player.init]

/-- C3 amended: across every sequence of public player operations with
nonnegative amounts and no shield power-up pickups, health stays within
[0, maxHealth] and armor within [0, maxArmor] (the shield pickup adds 50
armor unclamped and can exceed maxArmor, as the counterexample shows). -/
theorem player_health_armor_bounds (ops : List PlayerOp)
    (hops : ∀ op ∈ ops, PlayerOp.ok op = true) :
    0 ≤ (Player.runOps Player.init ops).health ∧
    (Player.runOps Player.init ops).health ≤ (Player.runOps Player.init ops).maxHealth ∧
    0 ≤ (Player.runOps Player.init ops).armor ∧
    (Player.runOps Player.init ops).armor ≤ (Player.runOps Player.init ops).maxArmor :=
  Player.runOps_inv ops Player.init
    ⟨by norm_num [Player.init], by norm_num [Player.init],
     by norm_num [Player.init], by norm_num [Player.init]⟩ hops

/-- C3 witness: a 40 damage hit followed by a 10 heal keeps health and
armor inside their bounds. -/
theorem player_health_armor_bounds_witness :
    0 ≤ (Player.runOps Player.init [PlayerOp.takeDamage 40, PlayerOp.heal 10]).health ∧
    (Player.runOps Player.init [PlayerOp.takeDamage 40, PlayerOp.heal 10]).health
      ≤ (Player.runOps Player.init [PlayerOp.takeDamage 40, PlayerOp.heal 10]).maxHealth ∧
    0 ≤ (Player.runOps Player.init [PlayerOp.takeDamage 40, PlayerOp.heal 10]).armor ∧
    (Player.runOps Player.init [PlayerOp.takeDamage 40, PlayerOp.heal 10]).armor
      ≤ (Player.runOps Player.init [PlayerOp.takeDamage 40, PlayerOp.heal 10]).maxArmor :=
  player_health_armor_bounds [PlayerOp.takeDamage 40, PlayerOp.heal 10]
    (by
      intro op hop
      simp only [List.mem_cons, List.not_mem_nil, or_false] at hop
      rcases hop with rfl | rfl <;> norm_num [PlayerOp.ok])

/-- C4 counterexample: a climbing player with the backward flag set and
forward clear, well above the floor: after one 0.1 s update the vertical
velocity is gravity-driven, not -climbSpeed, and climbing mode is off. -/
theorem player_climb_backward_cex :
    (Player.update scenarioClimbPlayer (1/10) true).velY ≠ -Player.climbSpeed ∧
    (Player.update scenarioClimbPlayer (1/10) true).isClimbing = false := by
  constructor <;>
    norm_num [Player.update, Player.checkClimbing, Player.gravityStep, Player.climbMoveStep,
      Player.integrateY, Player.floorClamp, Player.isOnGround, Player.stanceHeight,
      Player.standingHeight, Player.crouchingHeight, Player.gravity, Player.climbSpeed,
      scenarioClimbPlayer, Player.init]

/-- C4 amended: climbing engages only under the forward flag: with forward
set near a climbable surface, `checkClimbing` enters climbing and forces
vertical velocity to +climbSpeed; with forward clear, `update` leaves
climbing off and reduces to the plain gravity, integration and floor-clamp
pipeline, in which the backward flag never contributes -climbSpeed. -/
theorem player_climbing_requires_forward (s : PlayerState) (delta : ℚ) (canClimb : Bool) :
    (s.moveForward = true →
      (Player.checkClimbing s true).isClimbing = true ∧
      (Player.checkClimbing s true).velY = Player.climbSpeed) ∧
    (s.moveForward = false →
      (Player.update s delta canClimb).isClimbing = false ∧
      Player.update s delta canClimb
        = Player.floorClamp
            (Player.integrateY (Player.gravityStep { s with isClimbing := false } delta)
              delta)) := by
  constructor
  · intro hf
    unfold Player.checkClimbing
    simp [hf]
  · intro hf
    have hshape := Player.update_noForward_shape s delta canClimb hf
    refine ⟨?_, hshape⟩
    rw [hshape, Player.floorClamp_isClimbing, Player.integrateY_isClimbing,
      Player.gravityStep_isClimbing]

/-- C5: `takeDamage` with a nonnegative amount takes
`min armor (amount * 0.5)` out of armor and the rest out of health, with
health clamped at 0. -/
theorem player_takeDamage_armor_absorb (s : PlayerState) (amount : ℚ)
    (ha : 0 ≤ amount) (h0 : 0 ≤ s.armor) :
    (Player.takeDamage s amount).armor = s.armor - min s.armor (amount * (1/2)) ∧
    (Player.takeDamage s amount).health
      = max 0 (s.health - (amount - min s.armor (amount * (1/2)))) := by
  unfold Player.takeDamage
  by_cases hpos : 0 < s.armor
  · simp [hpos]
  · have hmin : min s.armor (amount * (1/2)) = 0 := by
      rw [le_antisymm (not_lt.1 hpos) h0]
      exact min_eq_left (by positivity)
    rw [if_neg hpos, hmin]
    norm_num

/-- C5 witness: `takeDamage 40` with 30 armor leaves 10 armor and takes 20
health (100 to 80). -/
theorem player_takeDamage_armor_absorb_witness :
    (Player.takeDamage scenarioArmorPlayer 40).armor = 10 ∧
    (Player.takeDamage scenarioArmorPlayer 40).health = 80 := by
  have h := player_takeDamage_armor_absorb scenarioArmorPlayer 40 (by norm_num)
    (by norm_num [scenarioArmorPlayer, Player.init])
  rw [h.1, h.2]
  constructor <;> norm_num [scenarioArmorPlayer, Player.init, min_def, max_def]

/-- C6: when a reload completes inside `Weapon.update` (reloading with the
accumulated timer reaching reloadTime), exactly
`min (maxAmmo - ammo) reserveAmmo` rounds move from reserve to ammo, the
reloading flag clears, and the total round count is conserved. -/
theorem weapon_reload_transfer (cfg : WeaponConfig) (s : WeaponState) (delta : ℚ)
    (h1 : s.isReloading = true) (h2 : cfg.reloadTime ≤ s.lastShotTime + delta) :
    (Weapon.update cfg s delta).ammo = s.ammo + min (cfg.maxAmmo - s.ammo) s.reserveAmmo ∧
    (Weapon.update cfg s delta).reserveAmmo
      = s.reserveAmmo - min (cfg.maxAmmo - s.ammo) s.reserveAmmo ∧
    (Weapon.update cfg s delta).isReloading = false ∧
    (Weapon.update cfg s delta).ammo + (Weapon.update cfg s delta).reserveAmmo
      = s.ammo + s.reserveAmmo := by
  obtain ⟨t, f, hshape⟩ := Weapon.update_complete_shape cfg s delta h1 h2
  rw [hshape]
  unfold Weapon.completeReload
  dsimp only
  refine ⟨rfl, rfl, rfl, by ring⟩

/-- C6 witness: an empty 30-round magazine with 120 reserve finishing its
reload gains 30 rounds, the reserve drops to 90, and the total stays 120. -/
theorem weapon_reload_transfer_witness :
    (Weapon.update scenarioWeaponConfig scenarioReloadingWeapon (1/5)).ammo = 30 ∧
    (Weapon.update scenarioWeaponConfig scenarioReloadingWeapon (1/5)).reserveAmmo = 90 ∧
    (Weapon.update scenarioWeaponConfig scenarioReloadingWeapon (1/5)).isReloading = false ∧
    (Weapon.update scenarioWeaponConfig scenarioReloadingWeapon (1/5)).ammo
      + (Weapon.update scenarioWeaponConfig scenarioReloadingWeapon (1/5)).reserveAmmo
      = 120 := by
  have h := weapon_reload_transfer scenarioWeaponConfig scenarioReloadingWeapon (1/5)
    rfl (by norm_num [scenarioReloadingWeapon, scenarioWeaponConfig])
  obtain ⟨h1, h2, h3, h4⟩ := h
  refine ⟨?_, ?_, h3, ?_⟩
  · rw [h1]
    norm_num [scenarioReloadingWeapon, scenarioWeaponConfig, min_def]
  · rw [h2]
    norm_num [scenarioReloadingWeapon, scenarioWeaponConfig, min_def]
  · rw [h4]
    norm_num [scenarioReloadingWeapon]

/-- C7: `Storm.update` returns `damage * delta` exactly when the planar
distance exceeds the updated radius and 0 otherwise; with planar distance
25, radius 20, damage rate 2 and delta 0.5 it returns 1. -/
theorem storm_damage_rule (cfg : StormConfig) (s : StormState) (delta dist : ℚ) :
    ((Storm.update cfg s delta dist).2
      = if (Storm.update cfg s delta dist).1.radius < dist then cfg.damage * delta else 0)
    ∧ (Storm.update stormDefaultConfig scenarioStormState (1/2) 25).2 = 1 :=
  ⟨rfl, by
    norm_num [Storm.update, Storm.tick, Storm.shrinkStep, stormDefaultConfig,
      scenarioStormState]⟩

/-- C8: with both phase durations positive, the phase timer is strictly
positive after every `Storm.update` call with nonnegative delta: the timer
is reset to the next phase duration in the same call in which it would
reach or cross zero. -/
theorem storm_timer_positive (cfg : StormConfig) (s : StormState) (delta dist : ℚ)
    (hs : 0 < cfg.shrinkDuration) (hp : 0 < cfg.pauseDuration) (hd : 0 ≤ delta) :
    0 < (Storm.update cfg s delta dist).1.timeRemaining := by
  have h := Storm.tick_timer_pos cfg s delta hs hp
  have hrw : (Storm.update cfg s delta dist).1
      = Storm.shrinkStep (Storm.tick cfg s delta) delta := rfl
  rw [hrw, Storm.shrink_timer]
  exact h

/-- C8 witness: the default configuration, one one-second update from the
constructor state. -/
theorem storm_timer_positive_witness :
    0 < (Storm.update stormDefaultConfig (Storm.init stormDefaultConfig) 1 0).1.timeRemaining :=
  storm_timer_positive stormDefaultConfig (Storm.init stormDefaultConfig) 1 0
    (by norm_num [stormDefaultConfig]) (by norm_num [stormDefaultConfig]) (by norm_num)

/-- C9: `Weapon.shoot` never changes the reserve; a rejected shot while
reloading or inside the cooldown window leaves the whole state unchanged;
an out-of-ammo call keeps ammo and the muzzle flash unchanged (it only
starts a reload); a fired shot decrements ammo by one and starts no
reload. -/
theorem weapon_shoot_frame (cfg : WeaponConfig) (s : WeaponState) (now : ℚ) :
    (Weapon.shoot cfg s now).reserveAmmo = s.reserveAmmo ∧
    (s.isReloading = true → Weapon.shoot cfg s now = s) ∧
    (s.isReloading = false → s.ammo ≤ 0 →
      (Weapon.shoot cfg s now).ammo = s.ammo ∧
      (Weapon.shoot cfg s now).muzzleFlashVisible = s.muzzleFlashVisible) ∧
    (s.isReloading = false → 0 < s.ammo →
      now - s.lastShotTime < Weapon.shootingInterval cfg → Weapon.shoot cfg s now = s) ∧
    (s.isReloading = false → 0 < s.ammo →
      ¬ now - s.lastShotTime < Weapon.shootingInterval cfg →
      (Weapon.shoot cfg s now).ammo = s.ammo - 1 ∧
      (Weapon.shoot cfg s now).isReloading = false) := by
  refine ⟨?_, ?_, ?_, ?_, ?_⟩
  · unfold Weapon.shoot Weapon.reload
    repeat' split
    all_goals rfl
  · intro hr
    unfold Weapon.shoot Weapon.reload
    simp [hr]
  · intro hr h0
    have hred : Weapon.shoot cfg s now = Weapon.reload cfg s := by
      unfold Weapon.shoot
      rw [if_pos (Or.inr h0), if_pos h0]
    rw [hred]
    unfold Weapon.reload
    split
    · exact ⟨rfl, rfl⟩
    · exact ⟨rfl, rfl⟩
  · intro hr h0 hcool
    have h0' : ¬ s.ammo ≤ 0 := not_le.2 h0
    unfold Weapon.shoot
    simp [hr, h0', hcool]
  · intro hr h0 hcool
    have h0' : ¬ s.ammo ≤ 0 := not_le.2 h0
    unfold Weapon.shoot
    simp [hr, h0', hcool]

/-- C10: two successive `toggleCrouch` calls restore both the crouching
flag and the vertical position to their original values. -/
theorem player_toggleCrouch_involutive (s : PlayerState) :
    (Player.toggleCrouch (Player.toggleCrouch s)).isCrouching = s.isCrouching ∧
    (Player.toggleCrouch (Player.toggleCrouch s)).posY = s.posY := by
  cases hc : s.isCrouching <;> constructor <;>
    simp [Player.toggleCrouch, hc, Player.standingHeight, Player.crouchingHeight]
